import Mathlib

/-!
Shallow embedding of the retrieval core of the repository:
`backend/app/vectorstore/chroma.py` (class `ChromaDB`) and the settings
object of `backend/app/config.py`.  Python floats that only ever hold
decimal distance values are modelled as rationals (`ℚ`); Python `None`
as `Option.none`; Python dicts used as opaque metadata as association
lists.  The external chromadb backend is modelled by explicit function
parameters (its `query` result, its `get`-by-criteria lookup), and the
backend calls a method issues are returned as explicit effect records.
-/

namespace PandaETL

/-- Metadata mapping attached to a document (`dict` in the source); the
core never interprets it, so an association list of strings suffices. -/
abbrev Metadata := List (String × String)

/-- Embeds `chromadb.QueryResult` as used by `get_relevant_docs` and
`_filter_docs_based_on_distance`: four batch-shaped parallel fields,
each a list of per-query lists (the code always reads index `[0]`). -/
structure QueryResult where
  documents : List (List String)
  distances : List (List ℚ)
  metadatas : List (List Metadata)
  ids       : List (List String)
deriving DecidableEq, Repr

/-- Embeds Python `zip` over four sequences: pairs up entries index by
index and stops at the shortest input. -/
def zip4 {α β γ δ : Type} : List α → List β → List γ → List δ → List (α × β × γ × δ)
  | a :: as, b :: bs, c :: cs, d :: ds => (a, b, c, d) :: zip4 as bs cs ds
  | _, _, _, _ => []

/-- Embeds `ChromaDB._filter_docs_based_on_distance`: zips the first
batch element of the four result fields, keeps the tuples whose distance
is strictly below the threshold, and rebuilds the four fields from the
retained tuples, each wrapped back into a single-element batch list.
The source reads `[0]` of each field; on the batch-of-one results the
query backend produces this is the head, embedded here as `headD []`. -/
def filter_docs_based_on_distance (documents : QueryResult) (threshold : ℚ) : QueryResult :=
  let filtered_data :=
    (zip4 (documents.documents.headD []) (documents.distances.headD [])
        (documents.metadatas.headD []) (documents.ids.headD [])).filter
      (fun x => decide (x.2.1 < threshold))
  { documents := [filtered_data.map (fun x => x.1)]
    distances := [filtered_data.map (fun x => x.2.1)]
    metadatas := [filtered_data.map (fun x => x.2.2.1)]
    ids       := [filtered_data.map (fun x => x.2.2.2)] }

/-- State of a `ChromaDB` instance needed by the read path: the
configured `_max_samples` and `_similarity_threshold`, and the backend
collection's `query` method (question and `n_results` to a batch-shaped
result), modelled as an opaque function. -/
structure ChromaDB where
  max_samples : Int
  similarity_threshold : ℚ
  query : String → Int → QueryResult

/-- Default of the `max_samples` constructor argument in `ChromaDB.__init__`. -/
def defaultMaxSamples : Int := 3

/-- Default of the `similary_threshold` constructor argument in
`ChromaDB.__init__` (the source spells it that way), `1.5`. -/
def defaultSimilarityThreshold : ℚ := 3 / 2

/-- Embeds `k = k or self._max_samples` in `get_relevant_docs`: Python
`or` returns the right operand when `k` is `None` or the falsy `0`. -/
def effectiveK (k : Option Int) (max_samples : Int) : Int :=
  match k with
  | none => max_samples
  | some v => if v = 0 then max_samples else v

/-- Embeds `ChromaDB.get_relevant_docs`: resolves `k`, queries the
backend collection for `n_results = k` candidates, and filters the
result by the configured similarity threshold. -/
def get_relevant_docs (db : ChromaDB) (question : String) (k : Option Int) : QueryResult :=
  filter_docs_based_on_distance (db.query question (effectiveK k db.max_samples))
    db.similarity_threshold

/-- Embeds `ChromaDB.get_relevant_docs_documents`: projects the
`documents` field of `get_relevant_docs` at batch index `[0]` (the
filtered result provably has exactly one batch element, so `headD []`
is that element). -/
def get_relevant_docs_documents (db : ChromaDB) (question : String) (k : Option Int) : List String :=
  (get_relevant_docs db question k).documents.headD []

/-- Backend `collection.add` call as issued by `add_docs`: the exact
argument triple handed to chromadb. -/
structure AddCall where
  documents : List String
  metadatas : Option (List Metadata)
  ids : List String
deriving DecidableEq, Repr

/-- Embeds `ChromaDB.add_docs`.  `gen` supplies the random UUID text for
the i-th generated id (the source appends `"-docs"` to each).  The first
component is the single backend `add` call the method issues; the second
is the method's Python return value: the body has no `return` statement,
so the call evaluates to `None`, embedded as `none`. -/
def add_docs (gen : Nat → String) (docs : List String) (ids : Option (List String))
    (metadatas : Option (List Metadata)) : AddCall × Option (List String) :=
  let ids :=
    match ids with
    | none => (List.range docs.length).map (fun i => gen i ++ "-docs")
    | some given => given
  ({ documents := docs, metadatas := metadatas, ids := ids }, none)

/-- Backend effects of one `delete_docs` call: the `where` criteria of
each `collection.get` lookup issued, the `ids` argument of the single
`collection.delete` call (`none` embeds Python `ids=None`), and the
method's return value. -/
structure DeleteEffect where
  getCalls : List Metadata
  deleteIds : Option (List String)
  result : Bool
deriving DecidableEq, Repr

/-- Embeds `ChromaDB.delete_docs`.  `get` models the backend lookup
`collection.get(where=criteria)` already projected to the `id` field of
each returned record, as the source's list comprehension does.  When
`ids is None and metadata_criteria is not None` the criteria are
resolved to ids first; in every case a single `collection.delete(ids=ids)`
call follows and the method returns `True`. -/
def delete_docs (get : Metadata → List String) (ids : Option (List String))
    (metadata_criteria : Option Metadata) : DeleteEffect :=
  match ids, metadata_criteria with
  | none, some c => { getCalls := [c], deleteIds := some (get c), result := true }
  | ids, _ => { getCalls := [], deleteIds := ids, result := true }

/-- Embeds the `Settings` object of `backend/app/config.py`: its only
declared fields are `sqlalchemy_database_url` and `upload_dir`. -/
structure AppSettings where
  sqlalchemy_database_url : String
  upload_dir : String
deriving DecidableEq, Repr

/-- Python attribute access on the pydantic settings object: a declared
field yields its value, any other name raises `AttributeError`,
embedded as `none`. -/
def AppSettings.attr (s : AppSettings) (name : String) : Option String :=
  if name = "sqlalchemy_database_url" then some s.sqlalchemy_database_url
  else if name = "upload_dir" then some s.upload_dir
  else none

/-- Embeds the fields of `chromadb.config.Settings` that
`ChromaDB.__init__` reads or writes. -/
structure ClientSettings where
  persist_directory : String
  is_persistent : Bool
  anonymized_telemetry : Bool
deriving DecidableEq, Repr

/-- Embeds Python `persist_path or fallback` for an `Optional[str]`
left operand: the left value is kept only when it is a truthy
(non-empty) string. -/
def pyOrStr (a : Option String) (fallback : String) : String :=
  match a with
  | some s => if s = "" then fallback else s
  | none => fallback

/-- Truthiness of an `Optional[str]` value, as `elif persist_path:`
tests it: `None` and the empty string are falsy. -/
def truthyStr : Option String → Bool
  | none => false
  | some s => !(s == "")

/-- Embeds the client-settings resolution of `ChromaDB.__init__`:
(a) supplied `client_settings` win, with `persist_directory` overridden
by a truthy `persist_path`; (b) else a truthy `persist_path` builds
fresh persistent settings; (c) else the code evaluates
`settings.chromadb_url` on the app settings object — an attribute the
`Settings` class of `config.py` does not declare, so that access is
embedded through `AppSettings.attr` and a missing attribute is an
`AttributeError`, returned as `Except.error`. -/
def chromaInitSettings (persist_path : Option String) (client_settings : Option ClientSettings)
    (app : AppSettings) : Except String ClientSettings :=
  match client_settings with
  | some cs => .ok { cs with persist_directory := pyOrStr persist_path cs.persist_directory }
  | none =>
    if truthyStr persist_path then
      .ok { persist_directory := persist_path.getD "", is_persistent := true,
            anonymized_telemetry := false }
    else
      match app.attr "chromadb_url" with
      | some url => .ok { persist_directory := url, is_persistent := true,
                          anonymized_telemetry := false }
      | none => .error "AttributeError: chromadb_url"

/-- First batch element of the `documents` field, the `["documents"][0]`
read of the source. -/
def batch0Docs (r : QueryResult) : List String := r.documents.headD []

/-- First batch element of the `distances` field. -/
def batch0Dists (r : QueryResult) : List ℚ := r.distances.headD []

/-- First batch element of the `metadatas` field. -/
def batch0Metas (r : QueryResult) : List Metadata := r.metadatas.headD []

/-- First batch element of the `ids` field. -/
def batch0Ids (r : QueryResult) : List String := r.ids.headD []

lemma zip4_nil_left {α β γ δ : Type} (bs : List β) (cs : List γ) (ds : List δ) :
    zip4 ([] : List α) bs cs ds = [] := by
  cases bs <;> cases cs <;> cases ds <;> rfl

lemma zip4_of_projections {α β γ δ : Type} (l : List (α × β × γ × δ)) :
    zip4 (l.map (fun x => x.1)) (l.map (fun x => x.2.1)) (l.map (fun x => x.2.2.1))
      (l.map (fun x => x.2.2.2)) = l := by
  induction l with
  | nil => rfl
  | cons x xs ih => simp [zip4, ih]

lemma zip4_getD {α β γ δ : Type} (as : List α) (bs : List β) (cs : List γ) (ds : List δ)
    (da : α) (db : β) (dc : γ) (dd : δ) :
    ∀ i, i < as.length → bs.length = as.length → cs.length = as.length →
      ds.length = as.length →
      (zip4 as bs cs ds).getD i (da, db, dc, dd)
        = (as.getD i da, bs.getD i db, cs.getD i dc, ds.getD i dd) := by
  induction as generalizing bs cs ds with
  | nil => intro i hi; simp at hi
  | cons a as ih =>
    intro i hi hb hc hd
    cases bs with
    | nil => simp at hb
    | cons b bs =>
      cases cs with
      | nil => simp at hc
      | cons c cs =>
        cases ds with
        | nil => simp at hd
        | cons d ds =>
          cases i with
          | zero => rfl
          | succ i =>
            simp only [zip4, List.getD_cons_succ]
            exact ih bs cs ds i (by simpa using hi) (by simpa using hb)
              (by simpa using hc) (by simpa using hd)

/-- Claim C1: `_filter_docs_based_on_distance`, on four index-aligned
equal-length sequences and a threshold `t`, retains exactly the tuples
`(document[i], distance[i], metadata[i], id[i])` with `distance[i] < t`
(strict, so boundary-equal distances are excluded), in their original
relative order, with all four output sequences trimmed consistently:
the zipped output tuples are exactly the filter of the zipped input
tuples, where the zipped input list enumerates the indexed tuples;
every surviving tuple is strictly below the threshold, and the four
output sequences all have the same length. -/
theorem filter_retains_exactly_below_threshold
    (docs : List String) (dists : List ℚ) (metas : List Metadata) (idents : List String)
    (t : ℚ) (h1 : dists.length = docs.length) (h2 : metas.length = docs.length)
    (h3 : idents.length = docs.length) :
    zip4 (batch0Docs (filter_docs_based_on_distance ⟨[docs], [dists], [metas], [idents]⟩ t))
        (batch0Dists (filter_docs_based_on_distance ⟨[docs], [dists], [metas], [idents]⟩ t))
        (batch0Metas (filter_docs_based_on_distance ⟨[docs], [dists], [metas], [idents]⟩ t))
        (batch0Ids (filter_docs_based_on_distance ⟨[docs], [dists], [metas], [idents]⟩ t))
      = (zip4 docs dists metas idents).filter (fun x => decide (x.2.1 < t))
    ∧ (∀ x ∈ zip4 (batch0Docs (filter_docs_based_on_distance ⟨[docs], [dists], [metas], [idents]⟩ t))
          (batch0Dists (filter_docs_based_on_distance ⟨[docs], [dists], [metas], [idents]⟩ t))
          (batch0Metas (filter_docs_based_on_distance ⟨[docs], [dists], [metas], [idents]⟩ t))
          (batch0Ids (filter_docs_based_on_distance ⟨[docs], [dists], [metas], [idents]⟩ t)),
        x.2.1 < t)
    ∧ (∀ i, i < docs.length →
        (zip4 docs dists metas idents).getD i ("", 0, [], "")
          = (docs.getD i "", dists.getD i 0, metas.getD i [], idents.getD i ""))
    ∧ (batch0Dists (filter_docs_based_on_distance ⟨[docs], [dists], [metas], [idents]⟩ t)).length
        = (batch0Docs (filter_docs_based_on_distance ⟨[docs], [dists], [metas], [idents]⟩ t)).length
    ∧ (batch0Metas (filter_docs_based_on_distance ⟨[docs], [dists], [metas], [idents]⟩ t)).length
        = (batch0Docs (filter_docs_based_on_distance ⟨[docs], [dists], [metas], [idents]⟩ t)).length
    ∧ (batch0Ids (filter_docs_based_on_distance ⟨[docs], [dists], [metas], [idents]⟩ t)).length
        = (batch0Docs (filter_docs_based_on_distance ⟨[docs], [dists], [metas], [idents]⟩ t)).length := by
  have hzip : zip4 (batch0Docs (filter_docs_based_on_distance ⟨[docs], [dists], [metas], [idents]⟩ t))
      (batch0Dists (filter_docs_based_on_distance ⟨[docs], [dists], [metas], [idents]⟩ t))
      (batch0Metas (filter_docs_based_on_distance ⟨[docs], [dists], [metas], [idents]⟩ t))
      (batch0Ids (filter_docs_based_on_distance ⟨[docs], [dists], [metas], [idents]⟩ t))
      = (zip4 docs dists metas idents).filter (fun x => decide (x.2.1 < t)) := by
    simp only [filter_docs_based_on_distance, batch0Docs, batch0Dists, batch0Metas, batch0Ids,
      List.headD_cons]
    exact zip4_of_projections _
  refine ⟨hzip, ?_, ?_, ?_, ?_, ?_⟩
  · intro x hx
    rw [hzip] at hx
    have := List.of_mem_filter hx
    exact of_decide_eq_true this
  · intro i hi
    exact zip4_getD docs dists metas idents "" 0 [] "" i hi h1 h2 h3
  · simp [filter_docs_based_on_distance, batch0Docs, batch0Dists]
  · simp [filter_docs_based_on_distance, batch0Docs, batch0Metas]
  · simp [filter_docs_based_on_distance, batch0Docs, batch0Ids]

/-- Claim C1 witness: the spec's worked example, distances
`[0.3, 1.6, 0.9, 2.0]` against threshold `1.5`, satisfies the
equal-length hypotheses, and the theorem applies to it. -/
theorem filter_retains_exactly_below_threshold_witness :
    ([(3 : ℚ)/10, 8/5, 9/10, 2].length = (["a", "b", "c", "d"] : List String).length)
    ∧ ([([] : Metadata), [], [], []].length = (["a", "b", "c", "d"] : List String).length)
    ∧ ((["x1", "x2", "x3", "x4"] : List String).length
        = (["a", "b", "c", "d"] : List String).length)
    ∧ (batch0Dists (filter_docs_based_on_distance
          ⟨[["a", "b", "c", "d"]], [[3/10, 8/5, 9/10, 2]], [[[], [], [], []]],
            [["x1", "x2", "x3", "x4"]]⟩ (3/2))).length
        = (batch0Docs (filter_docs_based_on_distance
          ⟨[["a", "b", "c", "d"]], [[3/10, 8/5, 9/10, 2]], [[[], [], [], []]],
            [["x1", "x2", "x3", "x4"]]⟩ (3/2))).length :=
  ⟨rfl, rfl, rfl,
    (filter_retains_exactly_below_threshold ["a", "b", "c", "d"] [3/10, 8/5, 9/10, 2]
      [[], [], [], []] ["x1", "x2", "x3", "x4"] (3/2) rfl rfl rfl).2.2.2.1⟩

/-- Claim C2: for every backend state, question and `k`, the result of
`get_relevant_docs` is a `QueryResult` (exactly the four fields
`documents`, `distances`, `metadatas`, `ids`); each field is a
single-element batch list, and the four inner lists all have equal
length, so the index alignment is preserved through filtering. -/
theorem get_relevant_docs_shape (db : ChromaDB) (question : String) (k : Option Int) :
    (get_relevant_docs db question k).documents.length = 1
    ∧ (get_relevant_docs db question k).distances.length = 1
    ∧ (get_relevant_docs db question k).metadatas.length = 1
    ∧ (get_relevant_docs db question k).ids.length = 1
    ∧ (batch0Dists (get_relevant_docs db question k)).length
        = (batch0Docs (get_relevant_docs db question k)).length
    ∧ (batch0Metas (get_relevant_docs db question k)).length
        = (batch0Docs (get_relevant_docs db question k)).length
    ∧ (batch0Ids (get_relevant_docs db question k)).length
        = (batch0Docs (get_relevant_docs db question k)).length := by
  refine ⟨rfl, rfl, rfl, rfl, ?_, ?_, ?_⟩ <;>
    simp [get_relevant_docs, filter_docs_based_on_distance, batch0Docs, batch0Dists,
      batch0Metas, batch0Ids]

/-- Claim C3 (code-bug evaluation): `add_docs` is documented and
annotated to return the final list of ids used, but its body has no
`return` statement, so every call evaluates to `None`.  Evaluated at
the failing input `docs=["a"], ids=["id1"]`: the returned value is
`none`, not the id list `["id1"]` the claim requires. -/
theorem add_docs_returns_none :
    (add_docs (fun _ => "u") ["a"] (some ["id1"]) none).2 = none
    ∧ (add_docs (fun _ => "u") ["a"] (some ["id1"]) none).2 ≠ some ["id1"] :=
  ⟨rfl, fun h => Option.noConfusion h⟩

/-- Claim C4 counterexample: called with 3 documents and 2 ids,
`add_docs` does not fail before backend mutation — the backend `add`
call is issued, with exactly the mismatched sequences. -/
theorem add_docs_mismatched_still_calls_backend :
    (add_docs (fun _ => "u") ["a", "b", "c"] (some ["i1", "i2"]) none).1
      = { documents := ["a", "b", "c"], metadatas := none, ids := ["i1", "i2"] } := rfl

/-- Claim C4 amended: `add_docs` performs no length validation; when the
supplied ids have a length different from the docs, the backend `add`
call is still made, with the supplied sequences forwarded unchanged, so
any input-shape error can only arise inside the backend, after the call
is issued. -/
theorem add_docs_no_length_validation (gen : Nat → String) (docs : List String)
    (idents : List String) (metadatas : Option (List Metadata))
    (h : idents.length ≠ docs.length) :
    (add_docs gen docs (some idents) metadatas).1
      = { documents := docs, metadatas := metadatas, ids := idents } := rfl

/-- Claim C4 amended witness: 3 documents with 2 ids satisfy the
mismatch hypothesis, and the theorem applies. -/
theorem add_docs_no_length_validation_witness :
    ((["i1", "i2"] : List String).length ≠ (["a", "b", "c"] : List String).length)
    ∧ (add_docs (fun _ => "v") ["a", "b", "c"] (some ["i1", "i2"])
          (some [[("k", "v")], [("k", "w")], [("k", "z")]])).1
        = { documents := ["a", "b", "c"],
            metadatas := some [[("k", "v")], [("k", "w")], [("k", "z")]],
            ids := ["i1", "i2"] } :=
  ⟨by decide,
    add_docs_no_length_validation (fun _ => "v") ["a", "b", "c"] ["i1", "i2"]
      (some [[("k", "v")], [("k", "w")], [("k", "z")]]) (by decide)⟩

/-- Claim C5 counterexample: with both `ids` and `metadata_criteria`
absent, `delete_docs` is not rejected as a caller error: it issues the
backend `delete` call with `ids=None` — an unconstrained target — and
silently returns `True`. -/
theorem delete_docs_both_absent_counterexample :
    delete_docs (fun _ => []) none none
      = { getCalls := [], deleteIds := none, result := true } := rfl

/-- Claim C5 amended: when both `ids` and `metadata_criteria` are
absent, `delete_docs` performs no guard: it does no metadata lookup,
issues the single backend `delete` call with the unconstrained target
`ids=None`, and returns `True` (silently succeeding); what that backend
call deletes is then up to the backend's semantics. -/
theorem delete_docs_both_absent_behavior (get : Metadata → List String) :
    delete_docs get none none
      = { getCalls := [], deleteIds := none, result := true } := rfl

/-- Claim C6 (code-bug evaluation): the persistence-location precedence
chain of `ChromaDB.__init__`.  Branches (a) and (b) behave as claimed:
supplied client settings win and their `persist_directory` is
overridden by an explicit path; an explicit path alone builds fresh
persistent settings.  But on the default branch (no client settings, no
path) the code evaluates `settings.chromadb_url`, an attribute the
`Settings` class of `config.py` does not declare, so construction
raises `AttributeError` instead of completing with a configured default
location. -/
theorem chroma_persistence_resolution :
    chromaInitSettings (some "/p")
        (some { persist_directory := "/cs", is_persistent := true,
                anonymized_telemetry := false })
        { sqlalchemy_database_url := "sqlite:///t.db", upload_dir := "uploads" }
      = .ok { persist_directory := "/p", is_persistent := true, anonymized_telemetry := false }
    ∧ chromaInitSettings none
        (some { persist_directory := "/cs", is_persistent := true,
                anonymized_telemetry := false })
        { sqlalchemy_database_url := "sqlite:///t.db", upload_dir := "uploads" }
      = .ok { persist_directory := "/cs", is_persistent := true, anonymized_telemetry := false }
    ∧ chromaInitSettings (some "/p") none
        { sqlalchemy_database_url := "sqlite:///t.db", upload_dir := "uploads" }
      = .ok { persist_directory := "/p", is_persistent := true, anonymized_telemetry := false }
    ∧ chromaInitSettings none none
        { sqlalchemy_database_url := "sqlite:///t.db", upload_dir := "uploads" }
      = .error "AttributeError: chromadb_url" :=
  ⟨rfl, rfl, rfl, rfl⟩

/-- Claim C7: `get_relevant_docs_documents` always returns exactly the
`documents` field of the first (only) batch element of
`get_relevant_docs` for the same arguments; and when the backend
returns zero candidates for the effective `k`, it returns the empty
sequence rather than failing. -/
theorem get_relevant_docs_documents_spec (db : ChromaDB) (question : String) (k : Option Int)
    (h : (db.query question (effectiveK k db.max_samples)).documents.headD [] = []) :
    (∀ (db' : ChromaDB) (q' : String) (k' : Option Int),
        get_relevant_docs_documents db' q' k'
          = (get_relevant_docs db' q' k').documents.headD [])
    ∧ get_relevant_docs_documents db question k = [] := by
  refine ⟨fun db' q' k' => rfl, ?_⟩
  simp only [get_relevant_docs_documents, get_relevant_docs, filter_docs_based_on_distance,
    List.headD_cons]
  rw [h, zip4_nil_left]
  rfl

/-- Claim C7 witness: a backend whose query returns an empty batch-of-one
result satisfies the zero-candidate hypothesis, and the theorem applies. -/
theorem get_relevant_docs_documents_spec_witness :
    (((⟨3, 3/2, fun _ _ => ⟨[[]], [[]], [[]], [[]]⟩⟩ : ChromaDB).query "q"
        (effectiveK none (⟨3, 3/2, fun _ _ => ⟨[[]], [[]], [[]], [[]]⟩⟩ : ChromaDB).max_samples)
      ).documents.headD [] = ([] : List String))
    ∧ ((∀ (db' : ChromaDB) (q' : String) (k' : Option Int),
          get_relevant_docs_documents db' q' k'
            = (get_relevant_docs db' q' k').documents.headD [])
        ∧ get_relevant_docs_documents
            (⟨3, 3/2, fun _ _ => ⟨[[]], [[]], [[]], [[]]⟩⟩ : ChromaDB) "q" none = []) :=
  ⟨rfl, get_relevant_docs_documents_spec
    (⟨3, 3/2, fun _ _ => ⟨[[]], [[]], [[]], [[]]⟩⟩ : ChromaDB) "q" none rfl⟩

/-- Claim C8: when `k` is omitted, `get_relevant_docs` requests exactly
the configured `max_samples` nearest neighbors from the backend: the
effective `k` equals `max_samples`, the whole call equals filtering the
backend query at `n_results = max_samples`, and the constructor default
for `max_samples` is 3. -/
theorem get_relevant_docs_default_k (db : ChromaDB) (question : String) :
    effectiveK none db.max_samples = db.max_samples
    ∧ get_relevant_docs db question none
        = filter_docs_based_on_distance (db.query question db.max_samples)
            db.similarity_threshold
    ∧ defaultMaxSamples = 3 :=
  ⟨rfl, rfl, rfl⟩

/-- Claim C9: every `delete_docs` call that completes, whichever
targeting mode is used, returns `True`. -/
theorem delete_docs_returns_true (get : Metadata → List String) (ids : Option (List String))
    (criteria : Option Metadata) :
    (delete_docs get ids criteria).result = true := by
  cases ids <;> cases criteria <;> rfl

/-- Claim C10: when `ids` is provided, `metadata_criteria` has no
effect: no backend metadata lookup is performed and exactly the
supplied ids are passed to the backend delete, for any criteria
value. -/
theorem delete_docs_ids_take_precedence (get : Metadata → List String) (idents : List String)
    (criteria : Option Metadata) :
    delete_docs get (some idents) criteria
      = { getCalls := [], deleteIds := some idents, result := true } := by
  cases criteria <;> rfl

end PandaETL
